import Mathlib

/-!
Verification of the Patna Metro route API (`src/server.js`).

The core of the program is the pure function `findRoute`, which operates on
the static `metroData` configuration (stations, ordered line sequences, and
the interchange registry), plus a thin estimation layer in the HTTP handler.
We embed the data and the algorithm faithfully: JavaScript `Array.indexOf`
returns `-1` when the element is absent (modelled with `Int`), and
`Array.slice` uses JavaScript clamping semantics; `for...in` over the
interchange object iterates in insertion order, modelled as a fold over the
key list.

Two models of the property access `metroData.stations[name]` appear below.
`stationLookup` is the registry-only view, adequate for inputs that are
registered station names or miss the object entirely.  `stationAccess` and
`findRouteJS` model full JavaScript semantics: `metroData.stations` is a
plain object literal inheriting from `Object.prototype`, so for names such
as "toString" or "constructor" the access yields an inherited function or
object — a truthy value that passes the guard at server.js:73, after which
`startNode.line` is `undefined`, `metroData.lines[undefined]` is
`undefined`, and calling `.indexOf` on it throws a TypeError.  The lemma
`findRouteJS_agrees_off_prototype` shows the two models agree on every name
that is not an `Object.prototype` property, so the registry-only theorems
describe the real program on their domains.
-/

namespace PatnaMetro

/-- A station record: its home line and whether it is an interchange,
as in `metroData.stations`. -/
structure StationInfo where
  line : Nat
  interchange : Bool
deriving DecidableEq, Repr

/-- `metroData.stations`: the station registry, in the source's insertion
order.  "Khemni Chak" and "Patna Junction" are keyed once with home line 1. -/
def stations : List (String × StationInfo) :=
  [ ("Danapur Cantonment", ⟨1, false⟩),
    ("Saguna More", ⟨1, false⟩),
    ("RPS More", ⟨1, false⟩),
    ("Patliputra", ⟨1, false⟩),
    ("Rukanpura", ⟨1, false⟩),
    ("Raja Bazar", ⟨1, false⟩),
    ("Patna Zoo", ⟨1, false⟩),
    ("Vikas Bhawan", ⟨1, false⟩),
    ("Vidyut Bhawan", ⟨1, false⟩),
    ("Patna Junction", ⟨1, true⟩),
    ("Mithapur", ⟨1, false⟩),
    ("Ramkrishna Nagar", ⟨1, false⟩),
    ("Jaganpur", ⟨1, false⟩),
    ("Khemni Chak", ⟨1, true⟩),
    ("New ISBT", ⟨2, false⟩),
    ("Zero Mile", ⟨2, false⟩),
    ("Bhoothnath", ⟨2, false⟩),
    ("Malahi Pakri", ⟨2, false⟩),
    ("Rajendra Nagar", ⟨2, false⟩),
    ("Moin Ul Haq Stadium", ⟨2, false⟩),
    ("Patna University", ⟨2, false⟩),
    ("PMCH", ⟨2, false⟩),
    ("Gandhi Maidan", ⟨2, false⟩),
    ("Akashvani", ⟨2, false⟩) ]

/-- The registered station names, in registry order. -/
def stationNames : List String := stations.map (·.1)

/-- Property access `metroData.stations[name]`. -/
def stationLookup (name : String) : Option StationInfo :=
  (stations.find? (fun p => p.1 = name)).map (·.2)

/-- `metroData.lines[1]`. -/
def line1Stations : List String :=
  [ "Danapur Cantonment", "Saguna More", "RPS More", "Patliputra",
    "Rukanpura", "Raja Bazar", "Patna Zoo", "Vikas Bhawan",
    "Vidyut Bhawan", "Patna Junction", "Mithapur", "Ramkrishna Nagar",
    "Jaganpur", "Khemni Chak" ]

/-- `metroData.lines[2]`. -/
def line2Stations : List String :=
  [ "Patna Junction", "Akashvani", "Gandhi Maidan", "PMCH",
    "Patna University", "Moin Ul Haq Stadium", "Rajendra Nagar",
    "Malahi Pakri", "Khemni Chak", "Bhoothnath", "Zero Mile", "New ISBT" ]

/-- `metroData.lines`: line identifier to ordered station sequence
(undefined identifiers give the empty sequence, never reached for
registered stations). -/
def metroLines (n : Nat) : List String :=
  if n = 1 then line1Stations else if n = 2 then line2Stations else []

/-- `metroData.interchanges`: the interchange registry's keys in insertion
order, as iterated by `for...in`. -/
def interchangeKeys : List String := ["Patna Junction", "Khemni Chak"]

/-- `metroData.interchanges[name]`: the set of lines an interchange bridges. -/
def interchangeLines (name : String) : Option (List Nat) :=
  if name = "Patna Junction" then some [1, 2]
  else if name = "Khemni Chak" then some [1, 2]
  else none

/-- JavaScript `Array.prototype.indexOf`: the index of the first occurrence,
or `-1` when absent. -/
def idxOf (l : List String) (s : String) : Int :=
  match l.findIdx? (fun x => x = s) with
  | some i => (i : Int)
  | none => -1

/-- JavaScript `Array.prototype.slice(s, e)`: negative indices count from the
end, both ends are clamped to `[0, length]`, and the element at the end
index is excluded. -/
def jsSlice (l : List String) (s e : Int) : List String :=
  let n : Int := (l.length : Int)
  let s' := if s < 0 then max (n + s) 0 else min s n
  let e' := if e < 0 then max (n + e) 0 else min e n
  (l.take e'.toNat).drop s'.toNat

/-- The slice-then-conditionally-reverse idiom used for every leg in
`findRoute`: `line.slice(Math.min(i, j), Math.max(i, j) + 1)`, reversed when
`i > j` so the result reads from position `i` to position `j`. -/
def slicePath (line : List String) (i j : Int) : List String :=
  let p := jsSlice line (min i j) (max i j + 1)
  if i > j then p.reverse else p

/-- The route object returned by `findRoute`. -/
structure Route where
  path : List String
  interchanges : Nat
  changeAt : Option String
deriving DecidableEq, Repr

/-- The body of one iteration of the `for...in` loop over the interchange
registry in `findRoute`: the candidate full path through `ic`, or `none`
when `ic` is absent from either endpoint's line (`indexOf === -1`,
`continue`). -/
def candidateFullPath (startNode endNode : StationInfo)
    (startStation endStation ic : String) : Option (List String) :=
  let line1 := metroLines startNode.line
  let startIndex1 := idxOf line1 startStation
  let interchangeIndex1 := idxOf line1 ic
  if interchangeIndex1 = -1 then none
  else
    let path1 := slicePath line1 startIndex1 interchangeIndex1
    let line2 := metroLines endNode.line
    let interchangeIndex2 := idxOf line2 ic
    let endIndex2 := idxOf line2 endStation
    if interchangeIndex2 = -1 then none
    else
      let path2 := slicePath line2 interchangeIndex2 endIndex2
      some (path1 ++ path2.drop 1)

/-- The update of `bestRoute` in the loop: replace when there is no best yet
or the candidate's full path is strictly shorter
(`!bestRoute || fullPath.length < bestRoute.path.length`). -/
def updateBest (bestRoute : Option Route) (ic : String)
    (fullPath : List String) : Option Route :=
  match bestRoute with
  | none => some ⟨fullPath, 1, some ic⟩
  | some best =>
      if fullPath.length < best.path.length then some ⟨fullPath, 1, some ic⟩
      else bestRoute

/-- `findRoute(startStation, endStation)` from `src/server.js`:
`null` when either name is not registered; a zero-interchange slice of the
shared line when the home lines agree; otherwise the best single-interchange
candidate found by iterating the interchange registry. -/
def findRoute (startStation endStation : String) : Option Route :=
  match stationLookup startStation, stationLookup endStation with
  | some startNode, some endNode =>
      if startNode.line = endNode.line then
        let line := metroLines startNode.line
        let startIndex := idxOf line startStation
        let endIndex := idxOf line endStation
        some ⟨slicePath line startIndex endIndex, 0, none⟩
      else
        interchangeKeys.foldl (fun bestRoute ic =>
          match candidateFullPath startNode endNode startStation endStation ic with
          | none => bestRoute
          | some fullPath => updateBest bestRoute ic fullPath) none
  | _, _ => none

-- --- Constants and the estimation layer of the `/api/route` handler ---

def AVERAGE_SPEED_KMPH : Nat := 34

def TIME_PER_STATION_MINS : Nat := 2

def COST_PER_STATION_INR : Nat := 5

def INTERCHANGE_TIME_MINS : Nat := 5

/-- The failure responses of the `/api/route` handler: status 400 when a
query parameter is missing or empty (falsy), status 404 when `findRoute`
returns `null`. -/
inductive ApiError where
  | missingParam
  | noRoute
deriving DecidableEq, Repr

/-- The success payload of the `/api/route` handler. -/
structure ApiResponse where
  fromStation : String
  toStation : String
  route : List String
  numberOfStations : Int
  numberOfInterchanges : Nat
  changeAt : Option String
  estimatedTimeMinutes : Int
  estimatedPriceINR : Int
deriving DecidableEq, Repr

/-- The `/api/route` handler: validates the parameters, calls `findRoute`,
and derives `numberOfStations = route.path.length - 1`,
`estimatedTime = numberOfStations * TIME_PER_STATION_MINS
+ interchanges * INTERCHANGE_TIME_MINS`, and
`estimatedPrice = numberOfStations * COST_PER_STATION_INR`. -/
def apiRoute (fromStation toStation : String) : Except ApiError ApiResponse :=
  if fromStation = "" || toStation = "" then .error .missingParam
  else
    match findRoute fromStation toStation with
    | none => .error .noRoute
    | some route =>
        let numberOfStations : Int := (route.path.length : Int) - 1
        let estimatedTime : Int :=
          numberOfStations * (TIME_PER_STATION_MINS : Int)
            + (route.interchanges : Int) * (INTERCHANGE_TIME_MINS : Int)
        let estimatedPrice : Int := numberOfStations * (COST_PER_STATION_INR : Int)
        .ok ⟨fromStation, toStation, route.path, numberOfStations,
          route.interchanges, route.changeAt, estimatedTime, estimatedPrice⟩

/-- The spec's description of candidate enumeration: the interchange
candidates that actually bridge the two endpoints' lines, paired with their
full two-leg paths, in the interchange registry's iteration order.
The second definition of a refinement pair, written from the spec's words. -/
def bridgingCandidates (a b : String) : List (String × List String) :=
  match stationLookup a, stationLookup b with
  | some ia, some ib =>
      interchangeKeys.filterMap (fun ic =>
        (candidateFullPath ia ib a b ic).map (fun p => (ic, p)))
  | _, _ => []

/-- The spec's selection rule, written from the spec's words: the first
candidate (in registry iteration order) whose full path has the fewest
total stations, i.e. the first one whose length is less than or equal to
every candidate's length. -/
def specArgminFirst (cands : List (String × List String)) :
    Option (String × List String) :=
  cands.find? (fun c => cands.all (fun d => c.2.length ≤ d.2.length))

-- --- Full JavaScript semantics of the property accesses ---

/-- The string-keyed properties every plain object literal inherits from
`Object.prototype`; accessing any of them on `metroData.stations` yields a
truthy function or object even though the name is not a registered
station. -/
def objectPrototypeKeys : List String :=
  [ "constructor", "hasOwnProperty", "isPrototypeOf", "propertyIsEnumerable",
    "toLocaleString", "toString", "valueOf", "__defineGetter__",
    "__defineSetter__", "__lookupGetter__", "__lookupSetter__", "__proto__" ]

/-- The value of the JavaScript property access `metroData.stations[name]`:
an own data property (a station record), a truthy value inherited from
`Object.prototype`, or `undefined`. -/
inductive JsStationProp where
  | station (info : StationInfo)
  | inherited
  | undefinedVal
deriving DecidableEq, Repr

/-- `metroData.stations[name]` under full JavaScript semantics. -/
def stationAccess (name : String) : JsStationProp :=
  match stations.find? (fun p => p.1 = name) with
  | some pr => .station pr.2
  | none => if name ∈ objectPrototypeKeys then .inherited else .undefinedVal

/-- JavaScript truthiness of the accessed property: only `undefined` is
falsy among the possible values. -/
def JsStationProp.truthy : JsStationProp → Bool
  | .undefinedVal => false
  | _ => true

/-- The `.line` attribute of the accessed property: a number for a station
record, `undefined` (here `none`) for a value inherited from
`Object.prototype`. -/
def JsStationProp.lineAttr : JsStationProp → Option Nat
  | .station i => some i.line
  | _ => none

/-- `metroData.lines[x]` under JavaScript semantics: `undefined` (here
`none`) when the key is `undefined` or any number other than 1 or 2. -/
def metroLinesAccess : Option Nat → Option (List String)
  | none => none
  | some n =>
      if n = 1 then some line1Stations
      else if n = 2 then some line2Stations else none

/-- The outcome of running `findRoute` under full JavaScript semantics:
a normal return value, or a thrown TypeError (from calling `.indexOf` on
`undefined`). -/
inductive JsResult where
  | value (r : Option Route)
  | typeError
deriving DecidableEq, Repr

/-- Whether the outcome is a normal return of a non-null route. -/
def JsResult.isValueSome : JsResult → Bool
  | .value (some _) => true
  | _ => false

/-- One iteration of the `for...in` loop under JavaScript semantics.  A
TypeError already thrown aborts the loop (the accumulator absorbs).  When
`metroData.lines[startNode.line]` is `undefined` the iteration throws at
`line1.indexOf(startStation)`; when it is defined but
`metroData.lines[endNode.line]` is `undefined`, the iteration throws at
`line2.indexOf(interchangeStation)` — after the `interchangeIndex1 === -1`
check, exactly as in the source. -/
def crossStep (lineA lineB : Option Nat) (startStation endStation : String)
    (acc : JsResult) (ic : String) : JsResult :=
  match acc with
  | .typeError => .typeError
  | .value bestRoute =>
      match metroLinesAccess lineA with
      | none => .typeError
      | some line1 =>
          let startIndex1 := idxOf line1 startStation
          let interchangeIndex1 := idxOf line1 ic
          if interchangeIndex1 = -1 then .value bestRoute
          else
            let path1 := slicePath line1 startIndex1 interchangeIndex1
            match metroLinesAccess lineB with
            | none => .typeError
            | some line2 =>
                let interchangeIndex2 := idxOf line2 ic
                let endIndex2 := idxOf line2 endStation
                if interchangeIndex2 = -1 then .value bestRoute
                else
                  let path2 := slicePath line2 interchangeIndex2 endIndex2
                  .value (updateBest bestRoute ic (path1 ++ path2.drop 1))

/-- `findRoute(startStation, endStation)` under full JavaScript semantics:
the guard at server.js:73 tests truthiness (so inherited `Object.prototype`
values pass it), `startNode.line === endNode.line` compares possibly
`undefined` attributes (`undefined === undefined` is true), and a line
lookup keyed by `undefined` later throws a TypeError at `.indexOf`. -/
def findRouteJS (startStation endStation : String) : JsResult :=
  let pA := stationAccess startStation
  let pB := stationAccess endStation
  if !pA.truthy || !pB.truthy then .value none
  else
    let lineA := pA.lineAttr
    let lineB := pB.lineAttr
    if lineA = lineB then
      match metroLinesAccess lineA with
      | none => .typeError
      | some line =>
          .value (some ⟨slicePath line (idxOf line startStation)
            (idxOf line endStation), 0, none⟩)
    else
      interchangeKeys.foldl (crossStep lineA lineB startStation endStation)
        (.value none)

-- --- Helper lemmas shared by the claim theorems ---

/-- A successful station lookup means the name is in the registry list. -/
lemma mem_stationNames_of_lookup {a : String} {i : StationInfo}
    (h : stationLookup a = some i) : a ∈ stationNames := by
  unfold stationLookup at h
  cases hf : stations.find? (fun p => p.1 = a) with
  | none => rw [hf] at h; simp at h
  | some pr =>
      have hmem := List.mem_of_find?_eq_some hf
      have hp := List.find?_some hf
      have : pr.1 = a := by simpa using hp
      exact this ▸ List.mem_map_of_mem (·.1) hmem

/-- An unregistered start station makes `findRoute` return `null`. -/
lemma findRoute_none_left {a b : String} (h : stationLookup a = none) :
    findRoute a b = none := by
  unfold findRoute
  rw [h]

/-- An unregistered end station makes `findRoute` return `null`. -/
lemma findRoute_none_right {a b : String} (h : stationLookup b = none) :
    findRoute a b = none := by
  unfold findRoute
  rw [h]
  cases stationLookup a <;> rfl

/-- A full-semantics access yields a station record exactly for registered
names, and it is the record the registry lookup returns. -/
lemma stationAccess_station_iff {a : String} {i : StationInfo} :
    stationAccess a = .station i ↔ stationLookup a = some i := by
  cases hf : stations.find? (fun p => p.1 = a) with
  | none =>
      simp only [stationAccess, stationLookup, hf, Option.map_none']
      constructor
      · intro h; split at h <;> simp at h
      · intro h; simp at h
  | some pr =>
      simp [stationAccess, stationLookup, hf]

/-- A full-semantics access is `undefined` exactly for names that are
neither registered nor inherited from `Object.prototype`. -/
lemma stationAccess_undefined_iff {a : String} :
    stationAccess a = .undefinedVal
      ↔ (stationLookup a = none ∧ a ∉ objectPrototypeKeys) := by
  cases hf : stations.find? (fun p => p.1 = a) with
  | none =>
      simp only [stationAccess, stationLookup, hf, Option.map_none', true_and]
      constructor
      · intro h
        intro hmem
        rw [if_pos hmem] at h
        simp at h
      · intro hmem
        rw [if_neg hmem]
  | some pr =>
      simp [stationAccess, stationLookup, hf]

/-- A full-semantics access hits an inherited `Object.prototype` value
exactly for unregistered names colliding with a prototype property. -/
lemma stationAccess_inherited_iff {a : String} :
    stationAccess a = .inherited
      ↔ (stationLookup a = none ∧ a ∈ objectPrototypeKeys) := by
  cases hf : stations.find? (fun p => p.1 = a) with
  | none =>
      simp only [stationAccess, stationLookup, hf, Option.map_none', true_and]
      constructor
      · intro h
        by_contra hmem
        rw [if_neg hmem] at h
        simp at h
      · intro hmem
        rw [if_pos hmem]
  | some pr =>
      simp [stationAccess, stationLookup, hf]

/-- Every registered station's home line is 1 or 2. -/
lemma station_line_one_or_two {a : String} {i : StationInfo}
    (h : stationLookup a = some i) : i.line = 1 ∨ i.line = 2 := by
  unfold stationLookup at h
  cases hf : stations.find? (fun p => p.1 = a) with
  | none => rw [hf] at h; simp at h
  | some pr =>
      rw [hf] at h
      simp at h
      have hmem := List.mem_of_find?_eq_some hf
      have hall : ∀ p ∈ stations, p.2.line = 1 ∨ p.2.line = 2 := by decide
      rw [← h]
      exact hall pr hmem

set_option maxRecDepth 100000 in
/-- Under full JavaScript semantics, every pair of registered stations gets
a normal non-null route. -/
lemma findRouteJS_total_registered :
    ∀ a ∈ stationNames, ∀ b ∈ stationNames,
      (findRouteJS a b).isValueSome = true := by
  decide

set_option maxRecDepth 100000 in
/-- On registered station names the two models coincide. -/
lemma findRouteJS_agrees_registered :
    ∀ a ∈ stationNames, ∀ b ∈ stationNames,
      findRouteJS a b = .value (findRoute a b) := by
  decide

/-- For any names away from the `Object.prototype` collisions the
full-semantics model and the registry-only model agree, so the
registry-only theorems describe the real program on their domains. -/
lemma findRouteJS_agrees_off_prototype (a b : String)
    (ha : a ∉ objectPrototypeKeys) (hb : b ∉ objectPrototypeKeys) :
    findRouteJS a b = .value (findRoute a b) := by
  cases hA : stationAccess a with
  | undefinedVal =>
      rw [findRoute_none_left (stationAccess_undefined_iff.mp hA).1]
      simp [findRouteJS, hA, JsStationProp.truthy]
  | inherited => exact absurd (stationAccess_inherited_iff.mp hA).2 ha
  | station i =>
      cases hB : stationAccess b with
      | undefinedVal =>
          rw [findRoute_none_right (stationAccess_undefined_iff.mp hB).1]
          simp [findRouteJS, hA, hB, JsStationProp.truthy]
      | inherited => exact absurd (stationAccess_inherited_iff.mp hB).2 hb
      | station j =>
          have hma := mem_stationNames_of_lookup (stationAccess_station_iff.mp hA)
          have hmb := mem_stationNames_of_lookup (stationAccess_station_iff.mp hB)
          exact findRouteJS_agrees_registered a hma b hmb

/-- When both accessed properties are truthy the guard passes, and the run
never returns the null result: either both names are registered and a route
comes back, or an inherited `Object.prototype` value leads to a TypeError. -/
lemma findRouteJS_ne_none_of_truthy {a b : String}
    (hA : (stationAccess a).truthy = true)
    (hB : (stationAccess b).truthy = true) :
    findRouteJS a b ≠ .value none := by
  cases hA' : stationAccess a with
  | undefinedVal => rw [hA'] at hA; exact absurd hA (by decide)
  | inherited =>
      cases hB' : stationAccess b with
      | undefinedVal => rw [hB'] at hB; exact absurd hB (by decide)
      | inherited =>
          have : findRouteJS a b = .typeError := by
            simp only [findRouteJS, hA', hB']
            rfl
          simp [this]
      | station j =>
          have : findRouteJS a b = .typeError := by
            simp only [findRouteJS, hA', hB']
            rfl
          simp [this]
  | station i =>
      cases hB' : stationAccess b with
      | undefinedVal => rw [hB'] at hB; exact absurd hB (by decide)
      | inherited =>
          have hline := station_line_one_or_two (stationAccess_station_iff.mp hA')
          have : findRouteJS a b = .typeError := by
            rcases hline with h1 | h1 <;>
              simp only [findRouteJS, hA', hB', JsStationProp.lineAttr, h1] <;>
              rfl
          simp [this]
      | station j =>
          have hma := mem_stationNames_of_lookup (stationAccess_station_iff.mp hA')
          have hmb := mem_stationNames_of_lookup (stationAccess_station_iff.mp hB')
          have ht := findRouteJS_total_registered a hma b hmb
          intro h
          rw [h] at ht
          simp [JsResult.isValueSome] at ht

-- --- Claim theorems ---

set_option maxRecDepth 100000 in
/-- C1: `resolve("Danapur Cantonment", "New ISBT")` hits the cross-line
branch (home lines 1 and 2 differ) and selects "Khemni Chak" as the
interchange: its combined two-leg path has 17 stations, shorter than the 21
via "Patna Junction", and the result has interchange count 1 with
changeAt = "Khemni Chak". -/
theorem resolve_danapur_isbt_via_khemni_chak :
    findRoute "Danapur Cantonment" "New ISBT"
      = some ⟨[ "Danapur Cantonment", "Saguna More", "RPS More", "Patliputra",
          "Rukanpura", "Raja Bazar", "Patna Zoo", "Vikas Bhawan",
          "Vidyut Bhawan", "Patna Junction", "Mithapur", "Ramkrishna Nagar",
          "Jaganpur", "Khemni Chak", "Bhoothnath", "Zero Mile", "New ISBT" ],
          1, some "Khemni Chak"⟩
    ∧ stationLookup "Danapur Cantonment" = some ⟨1, false⟩
    ∧ stationLookup "New ISBT" = some ⟨2, false⟩
    ∧ (candidateFullPath ⟨1, false⟩ ⟨2, false⟩ "Danapur Cantonment" "New ISBT"
        "Khemni Chak").map List.length = some 17
    ∧ (candidateFullPath ⟨1, false⟩ ⟨2, false⟩ "Danapur Cantonment" "New ISBT"
        "Patna Junction").map List.length = some 21 := by
  decide

/-- C2: the claim (and the spec, including the function's own
`@returns {object|null}` contract and the rule that request-time errors
never crash) says every unregistered station name reports InvalidStation
(`null`).  The code violates it: "toString" is not a registered station,
yet the inherited `Object.prototype.toString` passes the truthiness guard
and the run throws a TypeError instead of returning `null`.  Names that
miss the object entirely do take the `null` path. -/
theorem resolve_prototype_name_type_error :
    stationLookup "toString" = none
    ∧ findRouteJS "toString" "New ISBT" = .typeError
    ∧ findRouteJS "Nonexistent Station" "New ISBT" = .value none := by
  decide

set_option maxRecDepth 100000 in
/-- C3: for every registered station S, `resolve(S, S)` is a single-element
path containing only S, with interchange count 0 (so 0 stations traveled). -/
theorem resolve_same_station_singleton :
    ∀ s ∈ stationNames, findRoute s s = some ⟨[s], 0, none⟩ := by
  decide

/-- C3 witness at a concrete station. -/
theorem resolve_same_station_singleton_witness :
    findRoute "Patna Junction" "Patna Junction"
      = some ⟨["Patna Junction"], 0, none⟩ :=
  resolve_same_station_singleton "Patna Junction" (by decide)

set_option maxRecDepth 100000 in
/-- C4: for every pair of registered stations with the same home line, the
path of `resolve(A, B)` is the exact reverse of the path of
`resolve(B, A)`, and the stations-traveled counts agree. -/
theorem resolve_same_line_reverse :
    ∀ a ∈ stationNames, ∀ b ∈ stationNames,
      (stationLookup a).map (·.line) = (stationLookup b).map (·.line) →
      (findRoute a b).map (·.path.reverse) = (findRoute b a).map (·.path)
      ∧ (findRoute a b).map (·.path.length)
          = (findRoute b a).map (·.path.length) := by
  decide

/-- C4 witness at a concrete same-line pair. -/
theorem resolve_same_line_reverse_witness :
    (findRoute "Danapur Cantonment" "Patna Junction").map (·.path.reverse)
      = (findRoute "Patna Junction" "Danapur Cantonment").map (·.path)
    ∧ (findRoute "Danapur Cantonment" "Patna Junction").map (·.path.length)
      = (findRoute "Patna Junction" "Danapur Cantonment").map (·.path.length) :=
  resolve_same_line_reverse "Danapur Cantonment" (by decide)
    "Patna Junction" (by decide) (by decide)

set_option maxRecDepth 100000 in
/-- C5: for every pair of registered stations, `resolve(A, B)` and
`resolve(B, A)` agree on interchange count and total path length (the
station ordering need not be reversed). -/
theorem resolve_symmetric_counts :
    ∀ a ∈ stationNames, ∀ b ∈ stationNames,
      (findRoute a b).map (fun r => (r.interchanges, r.path.length))
        = (findRoute b a).map (fun r => (r.interchanges, r.path.length)) := by
  decide

/-- C5 witness at a concrete cross-line pair. -/
theorem resolve_symmetric_counts_witness :
    (findRoute "Danapur Cantonment" "New ISBT").map
        (fun r => (r.interchanges, r.path.length))
      = (findRoute "New ISBT" "Danapur Cantonment").map
        (fun r => (r.interchanges, r.path.length)) :=
  resolve_symmetric_counts "Danapur Cantonment" (by decide) "New ISBT"
    (by decide)

set_option maxRecDepth 1000000 in
/-- C6: in the cross-line case, `findRoute` returns exactly the first
bridging interchange candidate (in registry iteration order) whose full
two-leg path has the fewest total stations — the fewest-stations winner,
ties resolved by first-found. -/
theorem resolve_cross_line_argmin_first :
    ∀ a ∈ stationNames, ∀ b ∈ stationNames,
      (stationLookup a).map (·.line) ≠ (stationLookup b).map (·.line) →
      findRoute a b
        = (specArgminFirst (bridgingCandidates a b)).map
            (fun c => ⟨c.2, 1, some c.1⟩) := by
  decide

/-- C6 witness at a concrete cross-line pair. -/
theorem resolve_cross_line_argmin_first_witness :
    findRoute "Danapur Cantonment" "New ISBT"
      = (specArgminFirst (bridgingCandidates "Danapur Cantonment" "New ISBT")).map
          (fun c => ⟨c.2, 1, some c.1⟩) :=
  resolve_cross_line_argmin_first "Danapur Cantonment" (by decide) "New ISBT"
    (by decide) (by decide)

/-- C7: every successful response of the handler satisfies the estimation
formulas: with p the path length and k the interchange count,
stationsTraveled = p - 1, estimatedTime = stationsTraveled * 2 + k * 5 and
estimatedCost = stationsTraveled * 5, with the configured constants
TIME_PER_STATION_MINS = 2, INTERCHANGE_TIME_MINS = 5,
COST_PER_STATION_INR = 5. -/
theorem api_route_estimation_formulas :
    ∀ (a b : String) (resp : ApiResponse), apiRoute a b = .ok resp →
      resp.numberOfStations = (resp.route.length : Int) - 1
      ∧ resp.estimatedTimeMinutes
          = resp.numberOfStations * (TIME_PER_STATION_MINS : Int)
            + (resp.numberOfInterchanges : Int) * (INTERCHANGE_TIME_MINS : Int)
      ∧ resp.estimatedPriceINR
          = resp.numberOfStations * (COST_PER_STATION_INR : Int)
      ∧ TIME_PER_STATION_MINS = 2 ∧ INTERCHANGE_TIME_MINS = 5
      ∧ COST_PER_STATION_INR = 5 := by
  intro a b resp h
  unfold apiRoute at h
  split at h
  · exact absurd h (by simp)
  · split at h
    · exact absurd h (by simp)
    · rw [Except.ok.injEq] at h
      subst h
      refine ⟨rfl, rfl, rfl, rfl, rfl, rfl⟩

/-- C7 witness: the formulas instantiated on a concrete resolved route. -/
theorem api_route_estimation_formulas_witness :
    let resp : ApiResponse :=
      ⟨"Akashvani", "PMCH", ["Akashvani", "Gandhi Maidan", "PMCH"],
        2, 0, none, 4, 10⟩
    resp.numberOfStations = (resp.route.length : Int) - 1
    ∧ resp.estimatedTimeMinutes
        = resp.numberOfStations * (TIME_PER_STATION_MINS : Int)
          + (resp.numberOfInterchanges : Int) * (INTERCHANGE_TIME_MINS : Int)
    ∧ resp.estimatedPriceINR
        = resp.numberOfStations * (COST_PER_STATION_INR : Int)
    ∧ TIME_PER_STATION_MINS = 2 ∧ INTERCHANGE_TIME_MINS = 5
    ∧ COST_PER_STATION_INR = 5 :=
  api_route_estimation_formulas "Akashvani" "PMCH"
    ⟨"Akashvani", "PMCH", ["Akashvani", "Gandhi Maidan", "PMCH"],
      2, 0, none, 4, 10⟩ rfl

set_option maxRecDepth 100000 in
/-- C8: `resolve("Danapur Cantonment", "Khemni Chak")` is a same-line
(Line 1) route whose path is exactly the 14 Line-1 stations in declared
order, with interchange count 0. -/
theorem resolve_danapur_khemni_chak_line1 :
    findRoute "Danapur Cantonment" "Khemni Chak"
      = some ⟨line1Stations, 0, none⟩
    ∧ (stationLookup "Danapur Cantonment").map (·.line) = some 1
    ∧ (stationLookup "Khemni Chak").map (·.line) = some 1
    ∧ line1Stations.length = 14 := by
  decide

set_option maxRecDepth 100000 in
/-- C9: whenever the two endpoints' home lines differ, the returned route
has interchange count 1 and a non-null changeAt — even when one endpoint is
itself an interchange station lying on the other endpoint's line, so a
zero-change route along the shared line is never reported. -/
theorem resolve_cross_home_line_one_interchange :
    ∀ a ∈ stationNames, ∀ b ∈ stationNames,
      (stationLookup a).map (·.line) ≠ (stationLookup b).map (·.line) →
      (findRoute a b).map (fun r => (r.interchanges, r.changeAt.isSome))
        = some (1, true) := by
  decide

/-- C9 witness: "Khemni Chak" is an interchange lying on New ISBT's line,
yet the route still reports one interchange and a changeAt. -/
theorem resolve_cross_home_line_one_interchange_witness :
    (findRoute "Khemni Chak" "New ISBT").map
        (fun r => (r.interchanges, r.changeAt.isSome)) = some (1, true) :=
  resolve_cross_home_line_one_interchange "Khemni Chak" (by decide) "New ISBT"
    (by decide) (by decide)

/-- C10 counterexample: the claimed biconditional "the null result occurs
exactly when at least one of the two names is not in the station registry"
is false at the concrete input ("toString", "New ISBT"): the name is
unregistered, yet the run throws a TypeError and the null result does not
occur. -/
theorem resolve_null_iff_unregistered_counterexample :
    ¬ (findRouteJS "toString" "New ISBT" = .value none
        ↔ (stationLookup "toString" = none
            ∨ stationLookup "New ISBT" = none)) := by
  decide

/-- C10 (amended): `findRoute` returns a non-null route for every pair of
registered station names, and the `null` result occurs exactly when at
least one of the two names is neither in the station registry nor an
inherited `Object.prototype` property name; unregistered names colliding
with `Object.prototype` properties instead make the run throw a
TypeError. -/
theorem resolve_js_null_iff_undefined_name :
    (∀ a ∈ stationNames, ∀ b ∈ stationNames,
      (findRouteJS a b).isValueSome = true)
    ∧ ∀ a b : String,
        (findRouteJS a b = .value none
          ↔ ((stationLookup a = none ∧ a ∉ objectPrototypeKeys)
              ∨ (stationLookup b = none ∧ b ∉ objectPrototypeKeys))) := by
  refine ⟨findRouteJS_total_registered, ?_⟩
  intro a b
  constructor
  · intro h
    cases hA : stationAccess a with
    | undefinedVal => exact Or.inl (stationAccess_undefined_iff.mp hA)
    | inherited =>
        cases hB : stationAccess b with
        | undefinedVal => exact Or.inr (stationAccess_undefined_iff.mp hB)
        | inherited =>
            exact absurd h
              (findRouteJS_ne_none_of_truthy (by rw [hA]; rfl) (by rw [hB]; rfl))
        | station j =>
            exact absurd h
              (findRouteJS_ne_none_of_truthy (by rw [hA]; rfl) (by rw [hB]; rfl))
    | station i =>
        cases hB : stationAccess b with
        | undefinedVal => exact Or.inr (stationAccess_undefined_iff.mp hB)
        | inherited =>
            exact absurd h
              (findRouteJS_ne_none_of_truthy (by rw [hA]; rfl) (by rw [hB]; rfl))
        | station j =>
            exact absurd h
              (findRouteJS_ne_none_of_truthy (by rw [hA]; rfl) (by rw [hB]; rfl))
  · rintro (h | h)
    · have hA := stationAccess_undefined_iff.mpr h
      simp [findRouteJS, hA, JsStationProp.truthy]
    · have hB := stationAccess_undefined_iff.mpr h
      simp [findRouteJS, hB, JsStationProp.truthy]

/-- C10 witness: a concrete registered pair gets a non-null route, and a
concrete name missing the object entirely gives the null result. -/
theorem resolve_js_null_iff_undefined_name_witness :
    (findRouteJS "Danapur Cantonment" "New ISBT").isValueSome = true
    ∧ findRouteJS "Nonexistent Station" "New ISBT" = .value none :=
  ⟨resolve_js_null_iff_undefined_name.1 "Danapur Cantonment" (by decide)
      "New ISBT" (by decide),
   (resolve_js_null_iff_undefined_name.2 "Nonexistent Station" "New ISBT").mpr
      (Or.inl ⟨by decide, by decide⟩)⟩

end PatnaMetro
